import Mathlib

/-!
Shallow embedding of src/app.py, a FastAPI microservice that accepts order
records, persists them to a MongoDB collection through the motor driver, and
answers count and health queries.  Pure request handling is modelled as
functions on an explicit world state; driver calls that may raise are
modelled with Except; the framework layer (pydantic validation, the mapping
of an uncaught exception to a 500 response) is modelled around the handler
bodies exactly as FastAPI applies it.
-/

namespace DemoApp

/-- A JSON value as it may appear in a field of a request body. -/
inductive JsonValue where
  | str (s : String)
  | num (n : Int)
  | boolean (b : Bool)
  | null
  deriving DecidableEq, Repr

/-- Environment variables read at module load (src/app.py lines 21 to 23).
Each field is the raw value of one variable, absent when unset. -/
structure Env where
  mongoUriVar : Option String
  mongoDbVar : Option String
  mongoCollectionVar : Option String
  deriving DecidableEq, Repr

/-- MONGO_URI, read with no default (line 21). -/
def MONGO_URI (e : Env) : Option String := e.mongoUriVar

/-- MONGO_DB, defaulting to "app" (line 22). -/
def MONGO_DB (e : Env) : String := e.mongoDbVar.getD "app"

/-- MONGO_COLLECTION, defaulting to "orders" (line 23). -/
def MONGO_COLLECTION (e : Env) : String := e.mongoCollectionVar.getD "orders"

/-- A document persisted in the configured collection: the database-assigned
identifier _id (modelled as the natural oid) plus the two fields written by
create_order (line 103). By construction a stored document carries no field
beyond these three. -/
structure StoredDoc where
  oid : Nat
  orderId : String
  ts : String
  deriving DecidableEq, Repr

/-- World state the handlers act on: whether the module-level mongo_client
is set (line 54), whether the database currently answers driver operations,
the contents of the configured collection, the next identifier the database
will assign, the current value of datetime.utcnow().isoformat(), and a
counter of driver calls actually issued (instrumentation of the external
effect, used to state that an endpoint made no database call). -/
structure World where
  client : Bool
  reachable : Bool
  coll : List StoredDoc
  nextId : Nat
  nowIso : String
  dbCalls : Nat
  deriving DecidableEq, Repr

/-- Driver ping, as in await mongo_client.admin.command("ping"): a call is
issued and it succeeds exactly when the database is reachable. -/
def pingDb (w : World) : Except String Unit × World :=
  ((if w.reachable then .ok () else .error "ServerSelectionTimeoutError"),
   { w with dbCalls := w.dbCalls + 1 })

/-- Driver insert_one: a call is issued; on success exactly one document is
appended, carrying the database-assigned identifier, which is returned. -/
def insertOne (w : World) (orderId ts : String) : Except String Nat × World :=
  if w.reachable then
    (.ok w.nextId,
     { w with coll := w.coll ++ [⟨w.nextId, orderId, ts⟩],
              nextId := w.nextId + 1,
              dbCalls := w.dbCalls + 1 })
  else
    (.error "ServerSelectionTimeoutError", { w with dbCalls := w.dbCalls + 1 })

/-- Driver count_documents with the empty filter: a call is issued; on
success it returns the number of documents in the collection. -/
def countDocuments (w : World) : Except String Nat × World :=
  ((if w.reachable then .ok w.coll.length else .error "ServerSelectionTimeoutError"),
   { w with dbCalls := w.dbCalls + 1 })

/-- Rendering of a bson ObjectId as str(...) produces a 24 hex character
string; the identifier is modelled as a natural, rendered in hex, zero
padded to width 24. -/
def hexChar (n : Nat) : Char :=
  if n < 10 then Char.ofNat (48 + n) else Char.ofNat (87 + n)

/-- Hex digits of n, most significant first, padded to the given width. -/
def hexDigits : Nat → Nat → List Char
  | 0, _ => []
  | k + 1, n => hexDigits k (n / 16) ++ [hexChar (n % 16)]

/-- The string form of a database-assigned identifier (24 hex characters). -/
def objectIdHex (n : Nat) : String := String.mk (hexDigits 24 n)

/-- Response bodies the service can produce, one constructor per JSON shape:
statusOk is the healthz success body, detail is an HTTPException body,
insertedId is the create_order success body (inserted true plus the id
string), count is the orders_count body, validationError is the FastAPI 422
body, internalError is the framework body for an uncaught exception. -/
inductive RespBody where
  | statusOk
  | detail (msg : String)
  | insertedId (id : String)
  | count (n : Nat)
  | validationError
  | internalError
  deriving DecidableEq, Repr

/-- An HTTP response: status code and body. -/
structure Response where
  status : Nat
  body : RespBody
  deriving DecidableEq, Repr

/-- An HTTPException raised by a handler (caught by the framework and turned
into a response with the same status and a detail body). -/
structure HTTPExc where
  status : Nat
  detail : String
  deriving DecidableEq, Repr

/-- GET /healthz (lines 76 to 85): with no client, raise 503 at once;
otherwise ping and answer ok on success, 503 with the failure detail on
error. -/
def healthz (w : World) : Response × World :=
  if !w.client then
    (⟨503, .detail "no mongo client configured"⟩, w)
  else
    match pingDb w with
    | (.ok _, w1) => (⟨200, .statusOk⟩, w1)
    | (.error e, w1) => (⟨503, .detail ("mongo ping failed: " ++ e)⟩, w1)

/-- GET /ready (lines 115 to 117): the handler body is return await
healthz(). -/
def ready (w : World) : Response × World := healthz w

/-- Request model OrderIn (lines 88 to 89): one required string field. -/
structure OrderIn where
  orderId : String
  deriving DecidableEq, Repr

/-- Pydantic validation of the request body against OrderIn: the orderId
field must be present and hold a JSON string (pydantic v2 does not coerce
numbers, booleans or null to str); every other field of the body is
ignored. -/
def validateOrderIn (body : List (String × JsonValue)) : Except String OrderIn :=
  match body.lookup "orderId" with
  | some (.str s) => .ok ⟨s⟩
  | some _ => .error "Input should be a valid string"
  | none => .error "Field required"

/-- Whether the body carries an orderId field holding a JSON string: the
condition under which validateOrderIn succeeds. -/
def orderIdFieldValid (body : List (String × JsonValue)) : Bool :=
  match body.lookup "orderId" with
  | some (.str _) => true
  | _ => false

/-- Helper get_collection (lines 92 to 97): raise HTTPException 503 when the
client is absent, otherwise hand back the collection (the handle itself
carries no state; the world does). -/
def get_collection (w : World) : Except HTTPExc Unit :=
  if !w.client then .error ⟨503, "mongo not configured"⟩ else .ok ()

/-- POST /orders handler body (lines 100 to 105), run after validation has
produced an OrderIn. An HTTPException from get_collection becomes a response
with its status; a driver failure from insert_one is not caught by the
handler, so the framework turns it into a 500 response. -/
def create_order (w : World) (order : OrderIn) : Response × World :=
  match get_collection w with
  | .error e => (⟨e.status, .detail e.detail⟩, w)
  | .ok _ =>
    match insertOne w order.orderId (w.nowIso ++ "Z") with
    | (.ok oid, w1) => (⟨200, .insertedId (objectIdHex oid)⟩, w1)
    | (.error _, w1) => (⟨500, .internalError⟩, w1)

/-- The POST /orders endpoint as a client sees it: FastAPI validates the
body against OrderIn first and rejects an invalid body with 422 before the
handler runs. -/
def postOrders (w : World) (body : List (String × JsonValue)) : Response × World :=
  match validateOrderIn body with
  | .error _ => (⟨422, .validationError⟩, w)
  | .ok o => create_order w o

/-- GET /orders/count (lines 108 to 112): get_collection then
count_documents; a driver failure is not caught, so the framework turns it
into a 500 response. -/
def orders_count (w : World) : Response × World :=
  match get_collection w with
  | .error e => (⟨e.status, .detail e.detail⟩, w)
  | .ok _ =>
    match countDocuments w with
    | (.ok n, w1) => (⟨200, .count n⟩, w1)
    | (.error _, w1) => (⟨500, .internalError⟩, w1)

/-- startup_event (lines 56 to 67): when MONGO_URI is set, construct the
client and attempt one ping whose failure is only logged; when unset, do
nothing (the module logged a warning at load, lines 25 to 27) and the
client stays absent. -/
def startup_event (e : Env) (w : World) : World :=
  match MONGO_URI e with
  | none => w
  | some _ => (pingDb { w with client := true }).2

/-- The timeout keyword argument startup passes to AsyncIOMotorClient
(line 60): none is supplied, only the URI (the adjacent comment calls a
short serverSelectionTimeoutMS optional and the call does not set it). -/
def serverSelectionTimeoutMsArg : Option Nat := none

/-- Default serverSelectionTimeoutMS of the pymongo driver, in
milliseconds. -/
def driverDefaultServerSelectionTimeoutMs : Nat := 30000

/-- Effective server selection timeout of the client built at startup: the
argument when supplied, the driver default otherwise. -/
def effectiveServerSelectionTimeoutMs : Nat :=
  serverSelectionTimeoutMsArg.getD driverDefaultServerSelectionTimeoutMs

/-- Modelled from the spec: connection configuration of the TLS enforcing
variant. The repository contains multiple near duplicate variants (spec
section 1); src/ holds only app.py, a variant with no TLS settings, while
spec sections 4.1 and 7a describe a variant whose configuration carries an
enabled flag, a CA file path and a client certificate path. -/
structure TlsSettings where
  tlsEnabled : Bool
  caFile : Option String
  certFile : Option String
  deriving DecidableEq, Repr

/-- Modelled from the spec: file existence, with the filesystem given as
the list of paths that exist. -/
def fileExists (fs : List String) (p : String) : Bool := fs.contains p

/-- Modelled from the spec: every TLS file declared in the configuration is
required and must exist. -/
def requiredTlsFilesPresent (fs : List String) (t : TlsSettings) : Bool :=
  (match t.caFile with | some p => fileExists fs p | none => true) &&
  (match t.certFile with | some p => fileExists fs p | none => true)

/-- Modelled from the spec: startup validation of the TLS enforcing variant.
With TLS enabled and a declared required file absent, startup fails with a
fatal configuration error; otherwise it proceeds. -/
def startupTlsCheck (fs : List String) (t : TlsSettings) : Except String Unit :=
  if t.tlsEnabled && !requiredTlsFilesPresent fs t then
    .error "fatal configuration error: required TLS file missing"
  else
    .ok ()

/-- Modelled from the spec: the TLS enforcing variant serves traffic exactly
when its startup validation passed. -/
def servesTraffic (fs : List String) (t : TlsSettings) : Bool :=
  match startupTlsCheck fs t with
  | .ok _ => true
  | .error _ => false

/-- Helper: GET /healthz never changes whether the client is set. -/
theorem healthz_client_eq (w : World) : (healthz w).2.client = w.client := by
  unfold healthz pingDb
  cases hw : w.client <;> cases hr : w.reachable <;> simp [hw, hr]

/-- Helper: the POST /orders handler never changes whether the client is
set. -/
theorem create_order_client_eq (w : World) (o : OrderIn) :
    (create_order w o).2.client = w.client := by
  unfold create_order get_collection insertOne
  cases hw : w.client <;> cases hr : w.reachable <;> simp [hw, hr]

/-- Helper: the POST /orders endpoint never changes whether the client is
set. -/
theorem postOrders_client_eq (w : World) (body : List (String × JsonValue)) :
    (postOrders w body).2.client = w.client := by
  unfold postOrders
  cases hv : validateOrderIn body with
  | error e => simp
  | ok o => simpa using create_order_client_eq w o

/-- Helper: GET /orders/count never changes whether the client is set. -/
theorem orders_count_client_eq (w : World) :
    (orders_count w).2.client = w.client := by
  unfold orders_count get_collection countDocuments
  cases hw : w.client <;> cases hr : w.reachable <;> simp [hw, hr]

/-- C5: for every state of the system, GET /ready returns exactly the same
response as GET /healthz and has the same effect on the state; the two
endpoints are behaviorally identical (the ready handler returns await
healthz()). -/
theorem C5_ready_equals_healthz (w : World) : ready w = healthz w := rfl

/-- C6: when no client was ever established, GET /healthz answers 503 with
the fixed detail immediately, leaves the world untouched, and issues no
database call (the driver call counter does not move). -/
theorem C6_no_client_no_ping (w : World) (h : w.client = false) :
    healthz w = (⟨503, .detail "no mongo client configured"⟩, w) ∧
    (healthz w).2.dbCalls = w.dbCalls := by
  simp [healthz, h]

/-- C6 witness at a concrete world with no client. -/
theorem C6_no_client_no_ping_witness :
    (⟨false, true, [], 0, "T", 0⟩ : World).client = false ∧
    healthz ⟨false, true, [], 0, "T", 0⟩ =
      (⟨503, .detail "no mongo client configured"⟩, ⟨false, true, [], 0, "T", 0⟩) :=
  ⟨rfl, (C6_no_client_no_ping ⟨false, true, [], 0, "T", 0⟩ rfl).1⟩

/-- C4: in the TLS enforcing variant (modelled from the spec), a TLS enabled
configuration declaring a CA file that does not exist makes startup fail
with a fatal configuration error and the service serves no traffic. -/
theorem C4_tls_missing_file_fatal (fs : List String) (t : TlsSettings)
    (p : String) (hEn : t.tlsEnabled = true) (hCa : t.caFile = some p)
    (hMiss : fileExists fs p = false) :
    startupTlsCheck fs t =
      .error "fatal configuration error: required TLS file missing" ∧
    servesTraffic fs t = false := by
  have hreq : requiredTlsFilesPresent fs t = false := by
    simp [requiredTlsFilesPresent, hCa, hMiss]
  have hchk : startupTlsCheck fs t =
      .error "fatal configuration error: required TLS file missing" := by
    simp [startupTlsCheck, hEn, hreq]
  exact ⟨hchk, by simp [servesTraffic, hchk]⟩

/-- C4 witness: an empty filesystem and a TLS enabled configuration naming a
CA file. -/
theorem C4_tls_missing_file_fatal_witness :
    startupTlsCheck [] ⟨true, some "ca.pem", none⟩ =
      .error "fatal configuration error: required TLS file missing" ∧
    servesTraffic [] ⟨true, some "ca.pem", none⟩ = false :=
  C4_tls_missing_file_fatal [] ⟨true, some "ca.pem", none⟩ "ca.pem" rfl rfl rfl

/-- C7 counterexample: the effective server selection timeout of the client
built at startup is not in the 3 to 5 second range (no timeout argument is
passed, so the 30 second driver default applies). -/
theorem C7_counterexample :
    ¬ (3000 ≤ effectiveServerSelectionTimeoutMs ∧
        effectiveServerSelectionTimeoutMs ≤ 5000) := by
  decide

/-- C7 amended: the client is constructed exactly once at startup whenever
MONGO_URI is set (and never by a request handler), with no explicit server
selection timeout, so the 30 second driver default is the effective bound;
no other timeout or cancellation logic exists in the service. -/
theorem C7_amended_default_timeout (e : Env) (w : World)
    (body : List (String × JsonValue)) (h : (MONGO_URI e).isSome = true) :
    effectiveServerSelectionTimeoutMs = driverDefaultServerSelectionTimeoutMs ∧
    serverSelectionTimeoutMsArg = none ∧
    (startup_event e w).client = true ∧
    (healthz w).2.client = w.client ∧
    (postOrders w body).2.client = w.client ∧
    (orders_count w).2.client = w.client := by
  refine ⟨rfl, rfl, ?_, healthz_client_eq w, postOrders_client_eq w body,
    orders_count_client_eq w⟩
  cases he : e.mongoUriVar with
  | none => rw [MONGO_URI, he] at h; simp at h
  | some u => simp [startup_event, MONGO_URI, he, pingDb]

/-- C7 amended witness at a concrete environment, world and body. -/
theorem C7_amended_default_timeout_witness :
    effectiveServerSelectionTimeoutMs = driverDefaultServerSelectionTimeoutMs ∧
    serverSelectionTimeoutMsArg = none ∧
    (startup_event ⟨some "mongodb://db", none, none⟩
      ⟨false, true, [], 0, "T", 0⟩).client = true ∧
    (healthz ⟨false, true, [], 0, "T", 0⟩).2.client = false ∧
    (postOrders ⟨false, true, [], 0, "T", 0⟩ []).2.client = false ∧
    (orders_count ⟨false, true, [], 0, "T", 0⟩).2.client = false :=
  C7_amended_default_timeout ⟨some "mongodb://db", none, none⟩
    ⟨false, true, [], 0, "T", 0⟩ [] rfl

/-- C2 counterexample: with a client configured but the database
unreachable, POST /orders does not return 503; the uncaught driver error
surfaces as a 500 response. -/
theorem C2_counterexample :
    (create_order ⟨true, false, [], 0, "T", 0⟩ ⟨"A100"⟩).1.status = 500 ∧
    ¬ (create_order ⟨true, false, [], 0, "T", 0⟩ ⟨"A100"⟩).1.status = 503 := by
  constructor <;> decide

/-- C2 amended: with a client configured but the database unreachable, GET
/healthz and GET /ready both return 503 with a non empty detail message,
while POST /orders returns 500 (the driver failure is not caught by the
handler; 503 arises only when no client is configured). -/
theorem C2_amended_db_unreachable (w : World) (o : OrderIn)
    (hc : w.client = true) (hr : w.reachable = false) :
    (healthz w).1.status = 503 ∧
    (∃ m, (healthz w).1.body = .detail m ∧ m ≠ "") ∧
    ready w = healthz w ∧
    (create_order w o).1.status = 500 := by
  refine ⟨?_, ⟨"mongo ping failed: ServerSelectionTimeoutError", ?_, by decide⟩,
    rfl, ?_⟩ <;>
    simp [healthz, pingDb, create_order, get_collection, insertOne, hc, hr]

/-- C2 amended witness at a concrete world with a client and an unreachable
database. -/
theorem C2_amended_db_unreachable_witness :
    (healthz ⟨true, false, [], 0, "T", 0⟩).1.status = 503 ∧
    (create_order ⟨true, false, [], 0, "T", 0⟩ ⟨"X"⟩).1.status = 500 :=
  ⟨(C2_amended_db_unreachable ⟨true, false, [], 0, "T", 0⟩ ⟨"X"⟩ rfl rfl).1,
   (C2_amended_db_unreachable ⟨true, false, [], 0, "T", 0⟩ ⟨"X"⟩ rfl rfl).2.2.2⟩

/-- C1: with a client configured and the database reachable, GET
/orders/count, then POST /orders with a valid (non empty string) orderId,
then GET /orders/count again: the POST succeeds, appends exactly one new
document to the collection, and the second count is exactly one more than
the first. -/
theorem C1_post_increments_count (w : World) (s : String)
    (hc : w.client = true) (hr : w.reachable = true) (_hs : s ≠ "") :
    (orders_count w).1 = ⟨200, .count w.coll.length⟩ ∧
    (postOrders (orders_count w).2 [("orderId", JsonValue.str s)]).1.status = 200 ∧
    (postOrders (orders_count w).2 [("orderId", JsonValue.str s)]).2.coll =
      w.coll ++ [⟨w.nextId, s, w.nowIso ++ "Z"⟩] ∧
    (orders_count (postOrders (orders_count w).2
        [("orderId", JsonValue.str s)]).2).1 =
      ⟨200, .count (w.coll.length + 1)⟩ := by
  obtain ⟨c, r, coll, nid, now, calls⟩ := w
  simp only [World.client] at hc
  simp only [World.reachable] at hr
  subst hc; subst hr
  simp [orders_count, postOrders, validateOrderIn, create_order, get_collection,
    countDocuments, insertOne, List.lookup]

/-- C1 witness at a concrete reachable world and the orderId "A100". -/
theorem C1_post_increments_count_witness :
    (orders_count ⟨true, true, [], 0, "T", 0⟩).1 = ⟨200, .count 0⟩ ∧
    (postOrders (orders_count ⟨true, true, [], 0, "T", 0⟩).2
      [("orderId", JsonValue.str "A100")]).1.status = 200 ∧
    (orders_count (postOrders (orders_count ⟨true, true, [], 0, "T", 0⟩).2
      [("orderId", JsonValue.str "A100")]).2).1 = ⟨200, .count 1⟩ := by
  have h := C1_post_increments_count ⟨true, true, [], 0, "T", 0⟩ "A100" rfl rfl
    (by decide)
  exact ⟨h.1, h.2.1, h.2.2.2⟩

/-- C3: a request body whose orderId field is missing or not a string is
rejected by POST /orders with a 400 class status (422), the world is
unchanged (no document inserted), and GET /orders/count observes the same
response before and after. -/
theorem C3_invalid_body_rejected (w : World) (body : List (String × JsonValue))
    (h : orderIdFieldValid body = false) :
    postOrders w body = (⟨422, .validationError⟩, w) ∧
    400 ≤ (postOrders w body).1.status ∧ (postOrders w body).1.status < 500 ∧
    (orders_count (postOrders w body).2).1 = (orders_count w).1 := by
  have hpost : postOrders w body = (⟨422, .validationError⟩, w) := by
    cases hl : body.lookup "orderId" with
    | none => simp [postOrders, validateOrderIn, hl]
    | some v =>
      cases v with
      | str s => simp [orderIdFieldValid, hl] at h
      | num n => simp [postOrders, validateOrderIn, hl]
      | boolean b => simp [postOrders, validateOrderIn, hl]
      | null => simp [postOrders, validateOrderIn, hl]
  refine ⟨hpost, ?_, ?_, ?_⟩ <;> rw [hpost] <;> simp

/-- C3 witness: a body whose orderId field holds a number. -/
theorem C3_invalid_body_rejected_witness :
    orderIdFieldValid [("orderId", JsonValue.num 5)] = false ∧
    postOrders ⟨true, true, [], 0, "T", 0⟩ [("orderId", JsonValue.num 5)] =
      (⟨422, .validationError⟩, ⟨true, true, [], 0, "T", 0⟩) :=
  ⟨by decide,
   (C3_invalid_body_rejected ⟨true, true, [], 0, "T", 0⟩
     [("orderId", JsonValue.num 5)] (by decide)).1⟩

/-- C8: with a client configured and the database reachable, a successful
POST /orders appends exactly the document made of the orderId from the
request, the ts field (the current UTC time in isoformat with a Z suffix)
and the database-assigned identifier, and answers 200 with the inserted
flag and that identifier rendered as a string. -/
theorem C8_doc_schema_and_response (w : World) (o : OrderIn)
    (hc : w.client = true) (hr : w.reachable = true) :
    (create_order w o).2.coll =
      w.coll ++ [⟨w.nextId, o.orderId, w.nowIso ++ "Z"⟩] ∧
    (create_order w o).1 = ⟨200, .insertedId (objectIdHex w.nextId)⟩ := by
  obtain ⟨c, r, coll, nid, now, calls⟩ := w
  simp only [World.client] at hc
  simp only [World.reachable] at hr
  subst hc; subst hr
  simp [create_order, get_collection, insertOne]

/-- C8 witness at a concrete reachable world. -/
theorem C8_doc_schema_and_response_witness :
    (create_order ⟨true, true, [], 0, "T", 0⟩ ⟨"A100"⟩).2.coll =
      [⟨0, "A100", "T" ++ "Z"⟩] ∧
    (create_order ⟨true, true, [], 0, "T", 0⟩ ⟨"A100"⟩).1 =
      ⟨200, .insertedId (objectIdHex 0)⟩ := by
  simpa using
    C8_doc_schema_and_response ⟨true, true, [], 0, "T", 0⟩ ⟨"A100"⟩ rfl rfl

/-- C9 counterexample: with MONGO_URI unset (so startup leaves the client
absent), a POST /orders request whose body lacks the orderId field is
answered 422, not 503, so not every request gets a 503 response. -/
theorem C9_counterexample :
    (postOrders (startup_event ⟨none, none, none⟩ ⟨false, false, [], 0, "T", 0⟩)
        [("foo", JsonValue.num 1)]).1.status = 422 ∧
    ¬ (postOrders (startup_event ⟨none, none, none⟩ ⟨false, false, [], 0, "T", 0⟩)
        [("foo", JsonValue.num 1)]).1.status = 503 := by
  constructor <;> decide

/-- C9 amended: with MONGO_URI unset, startup does nothing (the client
handle stays absent and no handler ever sets it), GET /healthz, GET /ready
and GET /orders/count answer 503 on every request, and POST /orders answers
503 on every request whose body passes validation; a body failing
validation is still answered 422. -/
theorem C9_amended_no_uri_degraded (e : Env) (w : World)
    (body : List (String × JsonValue))
    (he : MONGO_URI e = none) (hw : w.client = false) :
    startup_event e w = w ∧
    (healthz w).1.status = 503 ∧ (ready w).1.status = 503 ∧
    (orders_count w).1.status = 503 ∧
    (orderIdFieldValid body = true → (postOrders w body).1.status = 503) ∧
    (orderIdFieldValid body = false → (postOrders w body).1.status = 422) ∧
    (healthz w).2.client = false ∧ (postOrders w body).2.client = false ∧
    (orders_count w).2.client = false := by
  refine ⟨by simp [startup_event, he], by simp [healthz, hw],
    by simp [ready, healthz, hw],
    by simp [orders_count, get_collection, hw], ?_, ?_,
    by rw [healthz_client_eq]; exact hw,
    by rw [postOrders_client_eq]; exact hw,
    by rw [orders_count_client_eq]; exact hw⟩
  · intro hv
    cases hl : body.lookup "orderId" with
    | none => simp [orderIdFieldValid, hl] at hv
    | some v =>
      cases v with
      | str s =>
        simp [postOrders, validateOrderIn, hl, create_order, get_collection, hw]
      | num n => simp [orderIdFieldValid, hl] at hv
      | boolean b => simp [orderIdFieldValid, hl] at hv
      | null => simp [orderIdFieldValid, hl] at hv
  · intro hv
    exact congrArg (fun r => r.1.status)
      (C3_invalid_body_rejected w body hv).1 ▸ rfl

/-- C9 amended witness at a concrete environment and world. -/
theorem C9_amended_no_uri_degraded_witness :
    startup_event ⟨none, none, none⟩ ⟨false, false, [], 0, "T", 0⟩ =
      ⟨false, false, [], 0, "T", 0⟩ ∧
    (healthz ⟨false, false, [], 0, "T", 0⟩).1.status = 503 ∧
    (orders_count ⟨false, false, [], 0, "T", 0⟩).1.status = 503 ∧
    (postOrders ⟨false, false, [], 0, "T", 0⟩
      [("orderId", JsonValue.str "A100")]).1.status = 503 := by
  have h := C9_amended_no_uri_degraded ⟨none, none, none⟩
    ⟨false, false, [], 0, "T", 0⟩ [("orderId", JsonValue.str "A100")] rfl rfl
  exact ⟨h.1, h.2.1, h.2.2.2.1, h.2.2.2.2.1 (by decide)⟩

/-- C10: a request body carrying an orderId string plus any other fields is
handled exactly as the body reduced to that orderId: with a client and a
reachable database the request succeeds, and the persisted document is made
only of orderId, ts and the database-assigned identifier, never of any
other field of the body. -/
theorem C10_extra_fields_discarded (w : World)
    (body : List (String × JsonValue)) (s : String)
    (h : body.lookup "orderId" = some (JsonValue.str s))
    (hc : w.client = true) (hr : w.reachable = true) :
    postOrders w body = create_order w ⟨s⟩ ∧
    (postOrders w body).1.status = 200 ∧
    (postOrders w body).2.coll = w.coll ++ [⟨w.nextId, s, w.nowIso ++ "Z"⟩] := by
  have h1 : postOrders w body = create_order w ⟨s⟩ := by
    simp [postOrders, validateOrderIn, h]
  have h2 := C8_doc_schema_and_response w ⟨s⟩ hc hr
  refine ⟨h1, ?_, ?_⟩ <;> rw [h1]
  · rw [h2.2]
  · exact h2.1

/-- C10 witness: a body with an extra field next to orderId. -/
theorem C10_extra_fields_discarded_witness :
    postOrders ⟨true, true, [], 0, "T", 0⟩
        [("orderId", JsonValue.str "A100"), ("extra", JsonValue.num 7)] =
      create_order ⟨true, true, [], 0, "T", 0⟩ ⟨"A100"⟩ ∧
    (postOrders ⟨true, true, [], 0, "T", 0⟩
        [("orderId", JsonValue.str "A100"), ("extra", JsonValue.num 7)]).1.status
      = 200 := by
  have h := C10_extra_fields_discarded ⟨true, true, [], 0, "T", 0⟩
    [("orderId", JsonValue.str "A100"), ("extra", JsonValue.num 7)] "A100"
    (by decide) rfl rfl
  exact ⟨h.1, h.2.1⟩

end DemoApp
